import Mathlib

/-!
Shallow embedding of the tiny-input library (src/lib.rs).

The library exposes three macros: raw_input! (write an optional prompt to
stdout, flush, read one line from stdin, pop the trailing character),
tiny_input! (raw fetch, panic on I/O error, then parse), and input!
(raw fetch, wrapping I/O errors and parse errors into a tagged Error enum).

The console is modelled as explicit state: stdout records the characters
written and how many of them have been flushed, stdin holds the remaining
character stream; each stream carries an optional injected I/O error so that
fallible writes, flushes and reads can be simulated.  Strings are modelled
as lists of characters.
-/

namespace TinyInput

/-- An abstract I/O error value (std::io::Error); the code never inspects it,
only propagates it, so a tagged payload suffices. -/
inductive IOError where
  | mk (code : Nat) : IOError
deriving DecidableEq, Repr

/-- Model of the locked standard output stream: the characters written so
far, how many of them have been flushed, and injected faults for the write
and flush operations. -/
structure Stdout where
  written : List Char
  flushedCount : Nat
  writeError : Option IOError
  flushError : Option IOError
deriving DecidableEq, Repr

/-- write!(stdout, ...): on an injected fault the error is returned and
nothing is written; otherwise the prompt characters are appended. -/
def Stdout.write (out : Stdout) (p : List Char) : Except IOError Stdout :=
  match out.writeError with
  | some e => .error e
  | none => .ok { out with written := out.written ++ p }

/-- stdout.flush(): on an injected fault the error is returned; otherwise
everything written so far counts as flushed. -/
def Stdout.flush (out : Stdout) : Except IOError Stdout :=
  match out.flushError with
  | some e => .error e
  | none => .ok { out with flushedCount := out.written.length }

/-- Model of the locked standard input stream: the remaining characters,
an injected fault for the read operation, and a count of read attempts
(used to state that a read was never attempted). -/
structure Stdin where
  data : List Char
  readError : Option IOError
  readAttempts : Nat
deriving DecidableEq, Repr

/-- Split a stream at the first line feed: the first component is the line
including its terminating line feed (or the whole stream if none: the
end-of-stream case), the second is the remainder. -/
def splitLine : List Char → List Char × List Char
  | [] => ([], [])
  | c :: cs =>
    if c = '\n' then ([c], cs)
    else
      let p := splitLine cs
      (c :: p.1, p.2)

/-- stdin.lock().read_line(&mut string): on an injected fault the error is
returned; otherwise one line (terminator included, as the Rust primitive
does) is taken off the stream.  Every call counts as a read attempt. -/
def Stdin.read_line (s : Stdin) : Except IOError (List Char) × Stdin :=
  match s.readError with
  | some e => (.error e, { s with readAttempts := s.readAttempts + 1 })
  | none =>
    let p := splitLine s.data
    (.ok p.1, { s with data := p.2, readAttempts := s.readAttempts + 1 })

/-- The whole console: one output stream, one input stream. -/
structure ConsoleState where
  stdout : Stdout
  stdin : Stdin
deriving DecidableEq, Repr

/-- The prompt-less arm of raw_input!: read_line into a fresh string, then
string.pop() — the source pops the last character unconditionally — and
return the string; a read error is propagated. -/
def raw_input_line (st : ConsoleState) : Except IOError (List Char) × ConsoleState :=
  match Stdin.read_line st.stdin with
  | (.ok line, stdin') => (.ok line.dropLast, { st with stdin := stdin' })
  | (.error e, stdin') => (.error e, { st with stdin := stdin' })

/-- The prompt arm of raw_input!: write the prompt, flush, then delegate to
the prompt-less arm; a write or flush error is returned without reading. -/
def raw_input_prompt (p : List Char) (st : ConsoleState) :
    Except IOError (List Char) × ConsoleState :=
  match Stdout.write st.stdout p with
  | .ok out' =>
    match Stdout.flush out' with
    | .ok out'' => raw_input_line { st with stdout := out'' }
    | .error e => (.error e, { st with stdout := out' })
  | .error e => (.error e, st)

/-- raw_input! with an optional prompt. -/
def raw_input : Option (List Char) → ConsoleState → Except IOError (List Char) × ConsoleState
  | none, st => raw_input_line st
  | some p, st => raw_input_prompt p st

/-- pub const FETCH_ERROR. -/
def FETCH_ERROR : String := "I/O error occured while fetching input"

/-- Outcome of an operation that may halt the process via .expect:
either a returned value or a process halt carrying the diagnostic text. -/
inductive PanicOutcome (α : Type) where
  | ret (value : α)
  | panicked (msg : String)
deriving DecidableEq, Repr

/-- tiny_input!(as T, ...): raw_input!(...).expect(FETCH_ERROR).parse::<T>().
The target type's parse rule enters as the function argument. -/
def tiny_input_as (parse : List Char → Except ε α) (prompt : Option (List Char))
    (st : ConsoleState) : PanicOutcome (Except ε α) × ConsoleState :=
  match raw_input prompt st with
  | (.ok s, st') => (.ret (parse s), st')
  | (.error _, st') => (.panicked FETCH_ERROR, st')

/-- tiny_input!(...) (inferred-type arm): raw_input!(...).expect(FETCH_ERROR).parse().
The contextually resolved parse rule enters as the function argument. -/
def tiny_input_inferred (parse : List Char → Except ε α) (prompt : Option (List Char))
    (st : ConsoleState) : PanicOutcome (Except ε α) × ConsoleState :=
  match raw_input prompt st with
  | (.ok s, st') => (.ret (parse s), st')
  | (.error _, st') => (.panicked FETCH_ERROR, st')

/-- pub enum Error<E>: fetch-failure variant holding an I/O error, or
parse-failure variant holding the target type's parse error. -/
inductive Error (ε : Type) where
  | Fetch (e : IOError)
  | Parse (e : ε)
deriving DecidableEq, Repr

/-- input!(as T, ...): raw_input!(...).map_err(Error::Fetch)
.and_then(|string| string.parse::<T>().map_err(Error::Parse)). -/
def input_as (parse : List Char → Except ε α) (prompt : Option (List Char))
    (st : ConsoleState) : Except (Error ε) α × ConsoleState :=
  match raw_input prompt st with
  | (.error e, st') => (.error (.Fetch e), st')
  | (.ok s, st') =>
    match parse s with
    | .error pe => (.error (.Parse pe), st')
    | .ok v => (.ok v, st')

/-- input!(...) (inferred-type arm): raw_input!(...).map_err(Error::Fetch)
.and_then(|string| string.parse().map_err(Error::Parse)). -/
def input_inferred (parse : List Char → Except ε α) (prompt : Option (List Char))
    (st : ConsoleState) : Except (Error ε) α × ConsoleState :=
  match raw_input prompt st with
  | (.error e, st') => (.error (.Fetch e), st')
  | (.ok s, st') =>
    match parse s with
    | .error pe => (.error (.Parse pe), st')
    | .ok v => (.ok v, st')

/-- std::num::ParseIntError kinds reachable from u64::from_str. -/
inductive ParseIntError where
  | empty
  | invalidDigit
  | posOverflow
deriving DecidableEq, Repr

/-- The largest u64 value. -/
def U64_MAX : Nat := 2 ^ 64 - 1

/-- Digit-accumulation loop of u64 radix-10 parsing with overflow checks. -/
def parseDigits (acc : Nat) : List Char → Except ParseIntError Nat
  | [] => .ok acc
  | c :: cs =>
    if c.isDigit then
      let acc' := acc * 10 + (c.toNat - '0'.toNat)
      if acc' ≤ U64_MAX then parseDigits acc' cs else .error .posOverflow
    else .error .invalidDigit

/-- str::parse::<u64>: empty input is rejected, an optional leading plus
sign is allowed, every remaining character must be a decimal digit, and the
value must fit in 64 bits. -/
def u64_from_str (s : List Char) : Except ParseIntError Nat :=
  match s with
  | [] => .error .empty
  | c :: cs =>
    let digits := if c = '+' then cs else s
    match digits with
    | [] => .error .invalidDigit
    | _ => parseDigits 0 digits

/-- Whether an Except value is a success. -/
def isOk : Except ε α → Bool
  | .ok _ => true
  | .error _ => false

/-- A console state whose next input line is the final partial line "abc"
followed immediately by end-of-stream, with no injected faults. -/
def c1State : ConsoleState :=
  { stdout := ⟨[], 0, none, none⟩, stdin := ⟨['a', 'b', 'c'], none, 0⟩ }

/-- A console state whose input stream is "hi\nx", with no injected faults. -/
def c2State : ConsoleState :=
  { stdout := ⟨[], 0, none, none⟩, stdin := ⟨['h', 'i', '\n', 'x'], none, 0⟩ }

/-- A console state whose input stream is "42\n", with no injected faults. -/
def c8State : ConsoleState :=
  { stdout := ⟨[], 0, none, none⟩, stdin := ⟨['4', '2', '\n'], none, 0⟩ }

/-- A console state whose input stream is "a\r\n", with no injected faults. -/
def c9State : ConsoleState :=
  { stdout := ⟨[], 0, none, none⟩, stdin := ⟨['a', '\r', '\n'], none, 0⟩ }

/-- A console state at immediate end-of-stream with no injected faults. -/
def c10State : ConsoleState :=
  { stdout := ⟨[], 0, none, none⟩, stdin := ⟨[], none, 0⟩ }

/-- If the stream holds a terminator-free segment, then a line feed, then a
remainder, read_line takes exactly the segment plus the line feed. -/
theorem splitLine_no_lf : ∀ (l rest : List Char), '\n' ∉ l →
    splitLine (l ++ '\n' :: rest) = (l ++ ['\n'], rest)
  | [], rest, _ => by simp [splitLine]
  | c :: cs, rest, hl => by
    have hc : ¬ c = '\n' := fun h => hl (h ▸ List.mem_cons_self c cs)
    simp [splitLine, hc,
      splitLine_no_lf cs rest (fun h => hl (List.mem_cons_of_mem c h))]

/-- Claim C1, code evaluated at the failing input: for the final partial
line "abc" arriving without a terminator, raw fetch does NOT return the
text unchanged — the unconditional string.pop() removes the non-terminator
character 'c', producing "ab". -/
theorem raw_input_pop_discards_nonterminator :
    (raw_input none c1State).1 = .ok ['a', 'b'] ∧
      (raw_input none c1State).1 ≠ .ok ['a', 'b', 'c'] := by
  refine ⟨rfl, fun h => ?_⟩
  have h2 : Except.ok (ε := IOError) ['a', 'b'] = Except.ok ['a', 'b', 'c'] := h
  simp at h2

/-- Claim C2: for every input line ending in exactly one line terminator,
raw fetch returns the line with that one trailing terminator removed and no
other character altered, and consumes exactly that line from the stream. -/
theorem raw_input_strips_single_terminator (l rest : List Char) (st : ConsoleState)
    (hl : '\n' ∉ l) (hdata : st.stdin.data = l ++ '\n' :: rest)
    (hr : st.stdin.readError = none) :
    (raw_input none st).1 = .ok l ∧ (raw_input none st).2.stdin.data = rest := by
  simp [raw_input, raw_input_line, Stdin.read_line, hr, hdata,
    splitLine_no_lf l rest hl, List.dropLast_concat]

/-- Witness for C2 at the concrete stream "hi\nx". -/
theorem raw_input_strips_single_terminator_witness :
    (raw_input none c2State).1 = .ok ['h', 'i'] ∧
      (raw_input none c2State).2.stdin.data = ['x'] :=
  raw_input_strips_single_terminator ['h', 'i'] ['x'] c2State (by decide) rfl rfl

/-- Claim C9: for every input line ending in a carriage return immediately
followed by a line feed, raw fetch removes only the final line feed and the
returned text still ends with the trailing carriage return. -/
theorem raw_input_crlf_leaves_cr (l rest : List Char) (st : ConsoleState)
    (hl : '\n' ∉ l) (hdata : st.stdin.data = l ++ '\r' :: '\n' :: rest)
    (hr : st.stdin.readError = none) :
    (raw_input none st).1 = .ok (l ++ ['\r']) := by
  have h2 : '\n' ∉ l ++ ['\r'] := by
    intro h
    rcases List.mem_append.mp h with h | h
    · exact hl h
    · simp at h
  have hsplit : splitLine (l ++ '\r' :: '\n' :: rest) = (l ++ ['\r', '\n'], rest) := by
    simpa using splitLine_no_lf (l ++ ['\r']) rest h2
  have hdrop : (l ++ ['\r', '\n']).dropLast = l ++ ['\r'] := by
    rw [show l ++ ['\r', '\n'] = (l ++ ['\r']) ++ ['\n'] by simp]
    exact List.dropLast_concat
  simp [raw_input, raw_input_line, Stdin.read_line, hr, hdata, hsplit, hdrop]

/-- Witness for C9 at the concrete stream "a\r\n". -/
theorem raw_input_crlf_leaves_cr_witness :
    (raw_input none c9State).1 = .ok ['a', '\r'] :=
  raw_input_crlf_leaves_cr ['a'] [] c9State (by decide) rfl rfl

/-- Claim C8: recoverable typed fetch on the input line "42" followed by the
terminator, parsed as an unsigned integer, returns the success value 42. -/
theorem input_42_parses_to_42 :
    (input_as u64_from_str none c8State).1 = .ok 42 := by
  rfl

/-- Claim C10: at immediate end-of-stream raw fetch succeeds with the empty
string, and raw fetch (with or without prompt) fails exactly when one of the
underlying write, flush or read operations reports an I/O error. -/
theorem raw_input_failure_iff_io_error (p : List Char) (st : ConsoleState) :
    (st.stdin.data = [] → st.stdin.readError = none → (raw_input none st).1 = .ok []) ∧
    isOk (raw_input none st).1 = st.stdin.readError.isNone ∧
    isOk (raw_input (some p) st).1 =
      (st.stdout.writeError.isNone &&
        (st.stdout.flushError.isNone && st.stdin.readError.isNone)) := by
  refine ⟨fun hd hr => ?_, ?_, ?_⟩
  · simp [raw_input, raw_input_line, Stdin.read_line, hr, hd, splitLine]
  · cases hre : st.stdin.readError <;>
      simp [raw_input, raw_input_line, Stdin.read_line, hre, isOk]
  · cases hwe : st.stdout.writeError <;> cases hfe : st.stdout.flushError <;>
      cases hre : st.stdin.readError <;>
      simp [raw_input, raw_input_prompt, raw_input_line, Stdout.write,
        Stdout.flush, Stdin.read_line, hwe, hfe, hre, isOk]

/-- Witness for C10 at a fault-free console at end-of-stream. -/
theorem raw_input_failure_iff_io_error_witness :
    (raw_input none c10State).1 = .ok [] ∧
    isOk (raw_input none c10State).1 = c10State.stdin.readError.isNone ∧
    isOk (raw_input (some ['>']) c10State).1 =
      (c10State.stdout.writeError.isNone &&
        (c10State.stdout.flushError.isNone && c10State.stdin.readError.isNone)) :=
  ⟨(raw_input_failure_iff_io_error ['>'] c10State).1 rfl rfl,
   (raw_input_failure_iff_io_error ['>'] c10State).2.1,
   (raw_input_failure_iff_io_error ['>'] c10State).2.2⟩

/-- A console state whose input stream is "abc\n", with no injected faults. -/
def c3State : ConsoleState :=
  { stdout := ⟨[], 0, none, none⟩, stdin := ⟨['a', 'b', 'c', '\n'], none, 0⟩ }

/-- c3State after its one line has been consumed. -/
def c3StateAfter : ConsoleState :=
  { stdout := ⟨[], 0, none, none⟩, stdin := ⟨[], none, 1⟩ }

/-- A console state whose input stream is pre-failed with I/O error 5. -/
def c4State : ConsoleState :=
  { stdout := ⟨[], 0, none, none⟩, stdin := ⟨[], some (.mk 5), 0⟩ }

/-- c4State after the failing read attempt. -/
def c4StateAfter : ConsoleState :=
  { stdout := ⟨[], 0, none, none⟩, stdin := ⟨[], some (.mk 5), 1⟩ }

/-- A console state whose output stream is pre-failed for writes with I/O
error 3, while input would be available. -/
def c5State : ConsoleState :=
  { stdout := ⟨[], 0, some (.mk 3), none⟩, stdin := ⟨['x'], none, 0⟩ }

/-- A console state with prior output "o" and input stream "hi\nz". -/
def c6State : ConsoleState :=
  { stdout := ⟨['o'], 0, none, none⟩, stdin := ⟨['h', 'i', '\n', 'z'], none, 0⟩ }

/-- c6State after the prompt "> " has been written and flushed and the line
"hi" consumed. -/
def c6StateAfter : ConsoleState :=
  { stdout := ⟨['o', '>', ' '], 3, none, none⟩, stdin := ⟨['z'], none, 1⟩ }

/-- Claim C3: recoverable typed fetch returns the fetch-failure variant on an
I/O failure (with no parse attempted), wraps a parse failure into the
parse-failure variant, and returns a parse success directly. -/
theorem input_error_routing (parse : List Char → Except ε α) (prompt : Option (List Char))
    (st : ConsoleState) :
    (∀ e st', raw_input prompt st = (.error e, st') →
      input_as parse prompt st = (.error (.Fetch e), st')) ∧
    (∀ s st', raw_input prompt st = (.ok s, st') →
      (∀ pe, parse s = .error pe → input_as parse prompt st = (.error (.Parse pe), st')) ∧
      (∀ v, parse s = .ok v → input_as parse prompt st = (.ok v, st'))) := by
  refine ⟨fun e st' h => ?_, fun s st' h => ⟨fun pe hp => ?_, fun v hp => ?_⟩⟩
  · simp [input_as, h]
  · simp [input_as, h, hp]
  · simp [input_as, h, hp]

/-- Witness for C3: with input text "abc" parsed as an unsigned integer, the
result is the parse-failure variant, not the fetch-failure variant. -/
theorem input_error_routing_witness :
    input_as u64_from_str none c3State = (.error (.Parse .invalidDigit), c3StateAfter) :=
  ((input_error_routing u64_from_str none c3State).2 ['a', 'b', 'c'] c3StateAfter rfl).1
    ParseIntError.invalidDigit rfl

/-- Claim C4: panicking typed fetch halts with the fixed constant diagnostic
string exactly when raw fetch fails, and on fetch success returns the parse
outcome directly, unwrapped, without halting on parse failure. -/
theorem tiny_input_halt_behavior (parse : List Char → Except ε α) (prompt : Option (List Char))
    (st : ConsoleState) :
    (∀ e st', raw_input prompt st = (.error e, st') →
      tiny_input_as parse prompt st = (.panicked FETCH_ERROR, st')) ∧
    (∀ s st', raw_input prompt st = (.ok s, st') →
      tiny_input_as parse prompt st = (.ret (parse s), st')) ∧
    FETCH_ERROR = "I/O error occured while fetching input" := by
  refine ⟨fun e st' h => ?_, fun s st' h => ?_, rfl⟩ <;> simp [tiny_input_as, h]

/-- Witness for C4 on a pre-failed input stream. -/
theorem tiny_input_halt_behavior_witness :
    tiny_input_as u64_from_str none c4State =
      (.panicked "I/O error occured while fetching input", c4StateAfter) :=
  (tiny_input_halt_behavior u64_from_str none c4State).1 (.mk 5) c4StateAfter rfl

/-- Claim C5: in raw fetch with a prompt, a failing prompt write returns the
I/O failure with the console untouched, and a failing flush returns the I/O
failure with only the write recorded; in both cases the input stream — read
attempts included — is exactly as before, so the read is never attempted. -/
theorem raw_input_write_short_circuit (p : List Char) (st : ConsoleState) :
    (∀ e, st.stdout.writeError = some e → raw_input (some p) st = (.error e, st)) ∧
    (∀ e, st.stdout.writeError = none → st.stdout.flushError = some e →
      raw_input (some p) st =
        (.error e,
          { st with stdout := { st.stdout with written := st.stdout.written ++ p } })) := by
  constructor
  · intro e he
    simp [raw_input, raw_input_prompt, Stdout.write, he]
  · intro e hw hf
    simp [raw_input, raw_input_prompt, Stdout.write, Stdout.flush, hw, hf]

/-- Witness for C5 on an output stream pre-failed for writes. -/
theorem raw_input_write_short_circuit_witness :
    raw_input (some ['?']) c5State = (.error (.mk 3), c5State) :=
  (raw_input_write_short_circuit ['?'] c5State).1 (.mk 3) rfl

/-- Claim C6: for every prompt P and input line L, raw fetch appends exactly
P to the output (byte-exact, nothing added), flushes all of it, and the read
then consumes exactly L from the input stream as it stood beforehand. -/
theorem raw_input_writes_prompt_before_read (p l rest : List Char) (st : ConsoleState)
    (hw : st.stdout.writeError = none) (hf : st.stdout.flushError = none)
    (hr : st.stdin.readError = none) (hl : '\n' ∉ l)
    (hdata : st.stdin.data = l ++ '\n' :: rest) :
    raw_input (some p) st =
      (.ok l,
        { stdout := { st.stdout with
            written := st.stdout.written ++ p,
            flushedCount := (st.stdout.written ++ p).length },
          stdin := { st.stdin with
            data := rest,
            readAttempts := st.stdin.readAttempts + 1 } }) := by
  simp [raw_input, raw_input_prompt, raw_input_line, Stdout.write, Stdout.flush,
    Stdin.read_line, hw, hf, hr, hdata, splitLine_no_lf l rest hl, List.dropLast_concat]

/-- Witness for C6 with prompt "> " and input line "hi". -/
theorem raw_input_writes_prompt_before_read_witness :
    raw_input (some ['>', ' ']) c6State = (.ok ['h', 'i'], c6StateAfter) :=
  raw_input_writes_prompt_before_read ['>', ' '] ['h', 'i'] ['z'] c6State rfl rfl rfl
    (by decide) rfl

/-- Claim C7: for every target type (via its parse rule), prompt, and console
state, the explicit-type and inferred-type invocation shapes of both typed
fetch operations produce identical results and identical final console
states. -/
theorem typed_fetch_shapes_agree (parse : List Char → Except ε α)
    (prompt : Option (List Char)) (st : ConsoleState) :
    tiny_input_as parse prompt st = tiny_input_inferred parse prompt st ∧
    input_as parse prompt st = input_inferred parse prompt st :=
  ⟨rfl, rfl⟩

end TinyInput
